import Mathlib

/-!
Verification of the netpanel portable-package subsystem
(`internal/handlers/portable.go` appstore part and
`internal/services/appstore/service.go`) against its natural-language
specification.

Paths are modelled as lists of components (mirroring `filepath.Join`,
which concatenates cleaned components); the filesystem and metadata
store are explicit state threaded through each operation; external
effects (HTTP responses, subprocess outcomes, process enumeration) are
environment parameters.
-/

namespace NetPanel

/-- A filesystem path, as its list of components (the string
`"a/b/c"` is `["a","b","c"]`).  `filepath.Join` concatenates
components and drops empty ones, which on component lists is `++`. -/
abbrev Path := List String

/-- Splits a character list at `'/'`, keeping empty segments — the
character-level body of `strings.Split(s, "/")` (written out
explicitly so that it evaluates by kernel reduction). -/
def splitSlash : List Char → List Char → List (List Char)
  | [], acc => [acc.reverse]
  | c :: cs, acc =>
    if c = '/' then acc.reverse :: splitSlash cs [] else splitSlash cs (c :: acc)

/-- `strings.Split(s, "/")`: all components, empty ones kept, never
the empty list. -/
def rawComps (s : String) : List String := (splitSlash s.data []).map String.mk

/-- `strings.Split(s, "/")` followed by `filepath.Join`'s dropping of
empty components: the components of a slash-separated relative path
string. -/
def comps (s : String) : List String := (rawComps s).filter (fun c => c ≠ "")

/-- `filepath.Join(p, s)` for a path `p` and a relative string `s`. -/
def pjoin (p : Path) (s : String) : Path := p ++ comps s

/-- Filesystem plus metadata store: existing directories, regular
files with their contents, and the `installed_packages` database rows
(package id, version).  `database.DB` is modelled as the `db` field. -/
structure Sys where
  dirs : List Path
  files : List (Path × String)
  db : List (String × String)
deriving DecidableEq

/-- `os.Stat` success on a directory. -/
def Sys.dirExists (sys : Sys) (p : Path) : Bool := sys.dirs.contains p

/-- `os.Stat` success on a regular file. -/
def Sys.fileExists (sys : Sys) (p : Path) : Bool :=
  (sys.files.find? (fun f => f.1 == p)).isSome

/-- `os.ReadFile`: the content when the file exists. -/
def Sys.readFile (sys : Sys) (p : Path) : Option String :=
  (sys.files.find? (fun f => f.1 == p)).map (fun f => f.2)

/-- `os.WriteFile`: create or truncate-and-overwrite. -/
def Sys.writeFile (sys : Sys) (p : Path) (content : String) : Sys :=
  { sys with files := (p, content) :: sys.files.filter (fun f => f.1 ≠ p) }

/-- All ancestor paths of `p`, `p` included (and the root `[]`). -/
def ancestors (p : Path) : List Path :=
  (List.range (p.length + 1)).map (fun k => p.take k)

/-- `os.MkdirAll`: creates the directory and every missing parent.
(The error cases of `MkdirAll` — a path component being an existing
regular file, permissions — are not modelled; the abstract filesystem
always accepts directory creation.) -/
def Sys.mkdirAll (sys : Sys) (p : Path) : Sys :=
  { sys with dirs := sys.dirs ++ (ancestors p).filter (fun q => ¬ sys.dirs.contains q) }

/-- `q` lies at or below `p`. -/
def underPath (p q : Path) : Bool := q.take p.length == p

/-- `os.RemoveAll p`: removes `p` and everything below it. -/
def Sys.removeTree (sys : Sys) (p : Path) : Sys :=
  { sys with
    dirs := sys.dirs.filter (fun q => ¬ underPath p q)
    files := sys.files.filter (fun f => ¬ underPath p f.1) }

/-- `os.Remove` on a regular file. -/
def Sys.removeFile (sys : Sys) (p : Path) : Sys :=
  { sys with files := sys.files.filter (fun f => f.1 ≠ p) }

/-- The names of the immediate sub-directories of `p`, from the set of
existing directories (the part of `os.ReadDir` that
`GetInstalledPortablePackages` keeps after its `entry.IsDir()` filter). -/
def Sys.dirChildren (sys : Sys) (p : Path) : List String :=
  sys.dirs.filterMap (fun q =>
    match q.drop p.length with
    | [n] => if q.take p.length = p then some n else none
    | _ => none)

/-- `os.ReadDir`: fails when the directory does not exist. -/
def Sys.readDir (sys : Sys) (p : Path) : Option (List String) :=
  if sys.dirExists p then some (sys.dirChildren p) else none

/-! ## Catalog (`PortableCatalog` in portable.go) -/

/-- One downloadable version of a package; `downloads` maps an
`"os/arch"` key (or `"all"`) to a URL, modelled as an association
list with the distinct keys of the Go map literal. -/
structure PortableVersion where
  version : String
  latest : Bool := false
  lts : Bool := false
  downloads : List (String × String)
deriving DecidableEq

/-- A catalog entry (`PortablePackage` in portable.go). -/
structure PortablePackage where
  id : String
  name : String
  description : String
  category : String
  installPath : String
  executable : List (String × String) := []
  configFile : String := ""
  ports : List Nat := []
  versions : List PortableVersion
deriving DecidableEq

/-- Go map lookup over an association list. -/
def lookupD (l : List (String × String)) (k : String) : Option String :=
  (l.find? (fun kv => kv.1 == k)).map (fun kv => kv.2)

def mysqlPkg : PortablePackage :=
  { id := "mysql", name := "MySQL Server",
    description := "Open-source relational database",
    category := "database", installPath := "database/mysql",
    executable := [("windows", "bin/mysqld.exe"), ("linux", "bin/mysqld"), ("darwin", "bin/mysqld")],
    configFile := "my.cnf", ports := [3306],
    versions :=
      [ { version := "8.0.35", latest := true,
          downloads :=
            [ ("windows/amd64", "https://dev.mysql.com/get/Downloads/MySQL-8.0/mysql-8.0.35-winx64.zip"),
              ("linux/amd64", "https://dev.mysql.com/get/Downloads/MySQL-8.0/mysql-8.0.35-linux-glibc2.17-x86_64.tar.xz") ] },
        { version := "5.7.44",
          downloads :=
            [ ("windows/amd64", "https://dev.mysql.com/get/Downloads/MySQL-5.7/mysql-5.7.44-winx64.zip"),
              ("linux/amd64", "https://dev.mysql.com/get/Downloads/MySQL-5.7/mysql-5.7.44-linux-glibc2.12-x86_64.tar.gz") ] } ] }

def mariadbPkg : PortablePackage :=
  { id := "mariadb", name := "MariaDB",
    description := "Community-developed MySQL fork",
    category := "database", installPath := "database/mariadb",
    executable := [("windows", "bin/mariadbd.exe"), ("linux", "bin/mariadbd"), ("darwin", "bin/mariadbd")],
    ports := [3306],
    versions :=
      [ { version := "11.2.2", latest := true,
          downloads :=
            [ ("windows/amd64", "https://archive.mariadb.org/mariadb-11.2.2/winx64-packages/mariadb-11.2.2-winx64.zip"),
              ("linux/amd64", "https://archive.mariadb.org/mariadb-11.2.2/bintar-linux-systemd-x86_64/mariadb-11.2.2-linux-systemd-x86_64.tar.gz") ] },
        { version := "10.11.6", lts := true,
          downloads :=
            [ ("windows/amd64", "https://archive.mariadb.org/mariadb-10.11.6/winx64-packages/mariadb-10.11.6-winx64.zip"),
              ("linux/amd64", "https://archive.mariadb.org/mariadb-10.11.6/bintar-linux-systemd-x86_64/mariadb-10.11.6-linux-systemd-x86_64.tar.gz") ] } ] }

def redisPkg : PortablePackage :=
  { id := "redis", name := "Redis",
    description := "In-memory data structure store",
    category := "database", installPath := "database/redis",
    executable := [("windows", "redis-server.exe"), ("linux", "src/redis-server"), ("darwin", "src/redis-server")],
    ports := [6379],
    versions :=
      [ { version := "7.2.3", latest := true,
          downloads :=
            [ ("windows/amd64", "https://github.com/tporadowski/redis/releases/download/v7.2.3/Redis-7.2.3-Windows-x64.zip"),
              ("linux/amd64", "https://download.redis.io/releases/redis-7.2.3.tar.gz") ] } ] }

def phpPkg : PortablePackage :=
  { id := "php", name := "PHP",
    description := "Server-side scripting language",
    category := "runtime", installPath := "runtime/php",
    executable := [("windows", "php.exe"), ("linux", "bin/php"), ("darwin", "bin/php")],
    versions :=
      [ { version := "8.4.16", latest := true,
          downloads := [("windows/amd64", "https://windows.php.net/downloads/releases/php-8.4.16-nts-Win32-vs17-x64.zip")] },
        { version := "8.3.29",
          downloads := [("windows/amd64", "https://windows.php.net/downloads/releases/php-8.3.29-nts-Win32-vs16-x64.zip")] },
        { version := "8.2.30",
          downloads := [("windows/amd64", "https://windows.php.net/downloads/releases/php-8.2.30-nts-Win32-vs16-x64.zip")] },
        { version := "8.1.34",
          downloads := [("windows/amd64", "https://windows.php.net/downloads/releases/php-8.1.34-nts-Win32-vs16-x64.zip")] } ] }

def nodejsPkg : PortablePackage :=
  { id := "nodejs", name := "Node.js",
    description := "JavaScript runtime",
    category := "runtime", installPath := "runtime/nodejs",
    executable := [("windows", "node.exe"), ("linux", "bin/node"), ("darwin", "bin/node")],
    versions :=
      [ { version := "20.10.0", latest := true, lts := true,
          downloads :=
            [ ("windows/amd64", "https://nodejs.org/dist/v20.10.0/node-v20.10.0-win-x64.zip"),
              ("linux/amd64", "https://nodejs.org/dist/v20.10.0/node-v20.10.0-linux-x64.tar.xz"),
              ("darwin/amd64", "https://nodejs.org/dist/v20.10.0/node-v20.10.0-darwin-x64.tar.gz"),
              ("darwin/arm64", "https://nodejs.org/dist/v20.10.0/node-v20.10.0-darwin-arm64.tar.gz") ] },
        { version := "18.19.0", lts := true,
          downloads :=
            [ ("windows/amd64", "https://nodejs.org/dist/v18.19.0/node-v18.19.0-win-x64.zip"),
              ("linux/amd64", "https://nodejs.org/dist/v18.19.0/node-v18.19.0-linux-x64.tar.xz"),
              ("darwin/amd64", "https://nodejs.org/dist/v18.19.0/node-v18.19.0-darwin-x64.tar.gz") ] } ] }

def nginxPkg : PortablePackage :=
  { id := "nginx", name := "Nginx",
    description := "High-performance web server",
    category := "webserver", installPath := "webserver/nginx",
    executable := [("windows", "nginx.exe"), ("linux", "sbin/nginx"), ("darwin", "sbin/nginx")],
    configFile := "conf/nginx.conf", ports := [80, 443],
    versions :=
      [ { version := "1.25.3", latest := true,
          downloads :=
            [ ("windows/amd64", "https://nginx.org/download/nginx-1.25.3.zip"),
              ("linux/amd64", "https://nginx.org/download/nginx-1.25.3.tar.gz") ] },
        { version := "1.24.0",
          downloads :=
            [ ("windows/amd64", "https://nginx.org/download/nginx-1.24.0.zip"),
              ("linux/amd64", "https://nginx.org/download/nginx-1.24.0.tar.gz") ] } ] }

def phpmyadminPkg : PortablePackage :=
  { id := "phpmyadmin", name := "phpMyAdmin",
    description := "MySQL web administration tool",
    category := "tools", installPath := "addons/phpmyadmin",
    versions :=
      [ { version := "5.2.1", latest := true,
          downloads := [("all", "https://files.phpmyadmin.net/phpMyAdmin/5.2.1/phpMyAdmin-5.2.1-all-languages.zip")] } ] }

def adminerPkg : PortablePackage :=
  { id := "adminer", name := "Adminer",
    description := "Lightweight database management",
    category := "tools", installPath := "addons/adminer",
    versions :=
      [ { version := "4.8.1", latest := true,
          downloads := [("all", "https://github.com/vrana/adminer/releases/download/v4.8.1/adminer-4.8.1.php")] } ] }

def composerPkg : PortablePackage :=
  { id := "composer", name := "Composer",
    description := "PHP dependency manager",
    category := "tools", installPath := "addons/composer",
    executable := [("windows", "composer.phar"), ("linux", "composer.phar"), ("darwin", "composer.phar")],
    versions :=
      [ { version := "2.6.6", latest := true,
          downloads := [("all", "https://getcomposer.org/download/2.6.6/composer.phar")] } ] }

/-- The full `PortableCatalog` literal. -/
def PortableCatalog : List PortablePackage :=
  [mysqlPkg, mariadbPkg, redisPkg, phpPkg, nodejsPkg, nginxPkg, phpmyadminPkg, adminerPkg, composerPkg]

/-- `GetPortablePackageByID`: first catalog entry with the given id. -/
def GetPortablePackageByID (id : String) : Option PortablePackage :=
  PortableCatalog.find? (fun pkg => pkg.id == id)

/-! ## Download URL resolution (`GetDownloadURL` in portable.go) -/

/-- The two failure kinds of `GetDownloadURL` (the `fmt.Errorf`
messages "version %s not found" and "no download available for %s"). -/
inductive ResolveErr
  | versionNotFound
  | noDownloadForPlatform
deriving DecidableEq

/-- `GetDownloadURL`, as written in portable.go: find the version in
the package's list; then try the `"all"` key FIRST, and only if it is
absent try the `"{os}/{arch}"` key.  `runtime.GOOS`/`runtime.GOARCH`
are the `os`/`arch` parameters. -/
def GetDownloadURL (pkg : PortablePackage) (version os arch : String) :
    Except ResolveErr String :=
  match pkg.versions.find? (fun v => v.version == version) with
  | none => .error .versionNotFound
  | some tv =>
    match lookupD tv.downloads "all" with
    | some url => .ok url
    | none =>
      match lookupD tv.downloads (os ++ "/" ++ arch) with
      | some url => .ok url
      | none => .error .noDownloadForPlatform

/-- Modelled from the spec's words (§4.1 lookup order): (a) the exact
platform/architecture key first; (b) the wildcard `"all"` key only if
(a) is absent; `VersionNotFound` when the version string is missing,
`NoDownloadForPlatform` when neither key matches. -/
def resolveSpec (pkg : PortablePackage) (version os arch : String) :
    Except ResolveErr String :=
  match pkg.versions.find? (fun v => v.version == version) with
  | none => .error .versionNotFound
  | some tv =>
    match lookupD tv.downloads (os ++ "/" ++ arch) with
    | some url => .ok url
    | none =>
      match lookupD tv.downloads "all" with
      | some url => .ok url
      | none => .error .noDownloadForPlatform


/-- A version's download map never mixes the wildcard key with
platform keys: either every key is `"all"` or none is. -/
def noMixedKeys (v : PortableVersion) : Bool :=
  v.downloads.all (fun kv => kv.1 == "all") || v.downloads.all (fun kv => !(kv.1 == "all"))


/-! ## Archive extraction (`extractZip` / `extractTar` / `extractTarXz`
in portable.go)

Extraction is modelled at the level of the paths it produces under
`destDir`: each archive entry yields a relative component path (and a
directory flag), or nothing when the entry is skipped. -/

structure ZipEntry where
  name : String
  isDir : Bool
deriving DecidableEq

/-- `parts[0]` of `strings.Split(name, "/")`. -/
def topComp (s : String) : String := (rawComps s).headI

/-- The `extractZip` break condition
`len(parts) == 1 && !f.FileInfo().IsDir()`: a file entry directly at
the archive's top level. -/
def rootLevelFile (e : ZipEntry) : Bool := ((rawComps e.name).length == 1) && !e.isDir

/-- The `hasRootDir`/`rootDirName` scanning loop of `extractZip`,
including its early `break`s; `root` is the current `rootDirName`. -/
def zipScan : List ZipEntry → String → Bool × String
  | [], root => (true, root)
  | e :: rest, root =>
    if rootLevelFile e then (false, root)
    else if root == "" then zipScan rest (topComp e.name)
    else if topComp e.name != root then (false, root)
    else zipScan rest root

/-- The stripping condition `hasRootDir && rootDirName != ""` used by
the extraction pass of `extractZip`. -/
def zipStripRoot (entries : List ZipEntry) : Bool :=
  ((zipScan entries "").1) && !((zipScan entries "").2 == "")

/-- One entry of the `extractZip` extraction pass: the relative path
(`filepath.Join` of the remaining components) placed under `dest`,
`none` when the root directory entry itself is skipped (`continue`). -/
def zipEntryOut (doStrip : Bool) (e : ZipEntry) : Option (Path × Bool) :=
  let parts := rawComps e.name
  if doStrip then
    if parts.length > 1 then some (parts.drop 1 |>.filter (fun c => c ≠ ""), e.isDir)
    else none
  else some (parts.filter (fun c => c ≠ ""), e.isDir)

/-- All paths produced by `extractZip` under `dest`. -/
def extractZipEntries (entries : List ZipEntry) : List (Path × Bool) :=
  entries.filterMap (zipEntryOut (zipStripRoot entries))

/-- Modelled from the spec's root-stripping rule: every entry's path
begins with the same single top-level directory component, no entries
at multiple distinct top-level names, and no file directly at the top
level. -/
def SpecSingleRoot (entries : List ZipEntry) : Prop :=
  entries ≠ [] ∧ (∃ t, ∀ e ∈ entries, topComp e.name = t) ∧
    ∀ e ∈ entries, rootLevelFile e = false


/-- `strings.SplitN(header.Name, "/", 2)`, second component: the tar
extraction pass always drops everything up to the first slash. -/
def tarOutName (n : String) : String :=
  let parts := rawComps n
  if parts.length > 1 then String.intercalate "/" (parts.drop 1) else n

inductive TarType
  | dir
  | reg
  | other
deriving DecidableEq

structure TarEntry where
  name : String
  typeflag : TarType
deriving DecidableEq

/-- All paths produced by `extractTar` under `dest` (dir entries via
`MkdirAll`, regular entries via `os.Create`; other typeflags are
skipped). -/
def extractTarEntries (entries : List TarEntry) : List (Path × Bool) :=
  entries.filterMap (fun e =>
    match e.typeflag with
    | .dir => some (comps (tarOutName e.name), true)
    | .reg => some (comps (tarOutName e.name), false)
    | .other => none)


/-! ## Downloader (`downloadFile` in portable.go) -/

/-- An HTTP response as the downloader observes it: the status code,
the `ContentLength` header (negative when the server omits it), the
chunk sizes delivered by the successful iterations of the 32KB-buffer
read loop, and an optional read/write failure after those chunks
(`none` means the body ended with a clean EOF). -/
structure HttpResponse where
  statusCode : Nat
  contentLength : Int
  chunks : List Nat
  streamErr : Option String
deriving DecidableEq

/-- The running `downloaded` totals handed to `progressFn` after each
chunk is written. -/
def chunkTotals : List Nat → Nat → List Nat
  | [], _ => []
  | n :: ns, acc => (acc + n) :: chunkTotals ns (acc + n)

/-- `downloadFile`: rejects any status other than exactly 200
(`resp.StatusCode != http.StatusOK`) before touching the body, then
streams the body chunk by chunk, invoking the progress callback with
`(downloaded, total)` after each chunk.  Returns the error result
paired with the progress calls made.  (The Go error carries
`resp.Status`; the model renders the numeric code.) -/
def downloadFile (resp : HttpResponse) : Except String Unit × List (Nat × Int) :=
  if resp.statusCode ≠ 200 then
    (.error ("download failed: " ++ toString resp.statusCode), [])
  else
    ((match resp.streamErr with
      | none => .ok ()
      | some m => .error m),
     (chunkTotals resp.chunks 0).map (fun d => (d, resp.contentLength)))

/-! ## Install orchestrator (`InstallPortablePackage` in portable.go) -/

/-- `InstallProgress`; `progress` is exact rational arithmetic in
place of float64. -/
structure InstallProgress where
  packageID : String
  version : String
  status : String
  progress : ℚ
  message : String
  installPath : Path
  error : String
deriving DecidableEq

/-- Environment of one install call: the running platform, the base
directory (`GetBaseDir`, derived from the executable's location), the
HTTP response for the resolved URL, and the outcome of
`extractArchive` together with the files it would place (relative to
the install directory). -/
structure InstallEnv where
  os : String
  arch : String
  baseDir : Path
  resp : HttpResponse
  extractOutcome : Except String Unit
  extractFiles : List (Path × String)

/-- What `InstallPortablePackage` hands back: the returned `error`,
the returned `*InstallProgress` (`none` on the early paths that
return `nil`), the sequence of callback invocations, and the final
system state. -/
structure InstallResult where
  err : Option String
  prog : Option InstallProgress
  trace : List InstallProgress
  sys : Sys
deriving DecidableEq

/-- `filepath.Base(url)`: the last slash-separated component. -/
def urlBase (url : String) : String := (rawComps url).getLastD url

/-- The `fmt.Errorf` texts of `GetDownloadURL`. -/
def resolveErrMsg (version os arch : String) : ResolveErr → String
  | .versionNotFound => "version " ++ version ++ " not found"
  | .noDownloadForPlatform => "no download available for " ++ os ++ "/" ++ arch

/-- Renders a path back to its string form. -/
def pathStr (p : Path) : String := String.intercalate "/" p

/-- The `configContent` literals of `createDefaultConfig` in
portable.go (empty for every package other than mysql/mariadb and
nginx). -/
def createDefaultConfigContent (pkgID : String) : String :=
  if pkgID = "mysql" ∨ pkgID = "mariadb" then
    "[mysqld]\nport=3306\ndatadir=./data\nsocket=./mysql.sock\nlog-error=./error.log\npid-file=./mysql.pid\n\n[client]\nport=3306\nsocket=./mysql.sock\n"
  else if pkgID = "nginx" then
    "worker_processes 1;\n\nevents \x7b\n    worker_connections 1024;\n\x7d\n\nhttp \x7b\n    include       mime.types;\n    default_type  application/octet-stream;\n    sendfile      on;\n    keepalive_timeout 65;\n\n    server \x7b\n        listen       80;\n        server_name  localhost;\n\n        location / \x7b\n            root   html;\n            index  index.html index.htm index.php;\n        \x7d\n    \x7d\n\x7d\n"
  else ""

/-- `createDefaultConfig` in portable.go: writes the default template
at `installPath/pkg.ConfigFile` only when no file exists there yet and
the package has a non-empty template. -/
def createDefaultConfig (pkg : PortablePackage) (installPath : Path) (sys : Sys) : Sys :=
  let configPath := pjoin installPath pkg.configFile
  if sys.fileExists configPath then sys
  else
    let content := createDefaultConfigContent pkg.id
    if content ≠ "" then sys.writeFile configPath content else sys

/-- `InstallPortablePackage`: resolve → create directories → download
into scratch (progress mapped into 0–50 when the total is known and
positive) → extract → remove the scratch file → default-configure →
record in the metadata store (best effort) → complete. -/
def InstallPortablePackage (env : InstallEnv) (sys : Sys) (packageID version : String) :
    InstallResult :=
  match GetPortablePackageByID packageID with
  | none => ⟨some ("package not found: " ++ packageID), none, [], sys⟩
  | some pkg =>
    match GetDownloadURL pkg version env.os env.arch with
    | .error e => ⟨some (resolveErrMsg version env.os env.arch e), none, [], sys⟩
    | .ok downloadURL =>
      let installPath := pjoin (pjoin env.baseDir pkg.installPath) version
      let tempDir := pjoin env.baseDir ".temp"
      let sys1 := (sys.mkdirAll installPath).mkdirAll tempDir
      let p0 : InstallProgress :=
        ⟨packageID, version, "downloading", 0, "Starting download...", installPath, ""⟩
      let tempFile := pjoin tempDir (urlBase downloadURL)
      let dl := downloadFile env.resp
      let dlTrace := dl.2.filterMap (fun dt =>
        if 0 < dt.2 then
          some { p0 with
                 progress := (dt.1 : ℚ) / (dt.2 : ℚ) * 50
                 message := "Downloading..." }
        else none)
      match dl.1 with
      | .error m =>
        let pl := dlTrace.getLastD p0
        ⟨some m, some { pl with status := "error", error := m }, p0 :: dlTrace, sys1⟩
      | .ok _ =>
        let sys2 := sys1.writeFile tempFile ""
        let p1 := { p0 with
          status := "extracting"
          progress := 50
          message := "Extracting files..." }
        match env.extractOutcome with
        | .error m =>
          ⟨some m, some { p1 with status := "error", error := m },
            p0 :: dlTrace ++ [p1], sys2⟩
        | .ok _ =>
          let sys3 := env.extractFiles.foldl
            (fun s f => s.writeFile (installPath ++ f.1) f.2) sys2
          let sys4 := sys3.removeFile tempFile
          let p2 := { p1 with
            status := "configuring"
            progress := 90
            message := "Configuring..." }
          let sys5 := if pkg.configFile ≠ "" then createDefaultConfig pkg installPath sys4
                      else sys4
          let sys6 := { sys5 with db := sys5.db ++ [(packageID, version)] }
          let pf := { p2 with
            status := "complete"
            progress := 100
            message := pkg.name ++ " " ++ version ++ " installed successfully" }
          ⟨none, some pf, p0 :: dlTrace ++ [p1, p2, pf], sys6⟩

/-- `GetInstalledPortablePackages`: derives the installed list from
the filesystem — for each catalog package, every sub-directory of
`{base}/{installPath}` is one installed `(package id, version)` (the
record's name/category/path/time fields are elided). -/
def GetInstalledPortablePackages (baseDir : Path) (sys : Sys) : List (String × String) :=
  PortableCatalog.flatMap (fun pkg =>
    match sys.readDir (pjoin baseDir pkg.installPath) with
    | none => []
    | some entries => entries.map (fun v => (pkg.id, v)))

/-- `UninstallPortablePackage`: fail when the install directory does
not exist; otherwise `os.RemoveAll` it — returning that error
IMMEDIATELY when the removal fails, before the metadata store is
touched — and only then delete the matching metadata rows.
`removeFails` is the environment's verdict on `os.RemoveAll` (a failed
removal may have deleted part of the tree; the partial state is not
modelled — what matters is that the function returns early). -/
def UninstallPortablePackage (removeFails : Bool) (baseDir : Path) (sys : Sys)
    (packageID version : String) : Except String Unit × Sys :=
  match GetPortablePackageByID packageID with
  | none => (.error ("package not found: " ++ packageID), sys)
  | some pkg =>
    let installPath := pjoin (pjoin baseDir pkg.installPath) version
    if ¬ sys.dirExists installPath then
      (.error ("package not installed: " ++ packageID ++ " " ++ version), sys)
    else if removeFails then
      (.error "remove failed", sys)
    else
      let sys2 := sys.removeTree installPath
      (.ok (), { sys2 with
                 db := sys2.db.filter (fun r => ¬ (r.1 = packageID ∧ r.2 = version)) })

/-! ## Process supervisor (`service.go`) -/

/-- The OS process environment the supervisor probes and signals:
whether a process matching a name pattern currently exists (drives
both `pgrep`/`tasklist` and the success of `pkill`/`taskkill`), the
matched pid (`0` when none, as in `getProcessPID`), and whether a
package's graceful administrative shutdown command (`nginx -s stop`,
`mysqladmin shutdown`, `redis-cli shutdown`) succeeds. -/
structure ProcEnv where
  running : String → Bool
  pidOf : String → Nat
  graceful : String → Bool

/-- `killProcess`: `pkill -9 name` (or `taskkill /F /IM name*`).
These commands exit non-zero when no process matched, which `cmd.Run`
surfaces as an error. -/
def killProcess (env : ProcEnv) (name : String) : Except String Unit :=
  if env.running name then .ok () else .error "exit status 1"

/-- `StopService`: graceful shutdown first where one exists, falling
back to a forceful kill whose result is DISCARDED; `php` (and the
dead default branch) instead return the kill result directly; the
tool-style packages are no-ops. -/
def StopService (env : ProcEnv) (packageID version : String) : Except String Unit :=
  match GetPortablePackageByID packageID with
  | none => .error ("package not found: " ++ packageID)
  | some _ =>
    if packageID = "nginx" then
      if env.graceful "nginx" then .ok ()
      else
        let _ := killProcess env "nginx"
        .ok ()
    else if packageID = "mysql" ∨ packageID = "mariadb" then
      if env.graceful packageID then .ok ()
      else
        let _ := killProcess env "mysqld"
        .ok ()
    else if packageID = "redis" then
      if env.graceful "redis" then .ok ()
      else
        let _ := killProcess env "redis-server"
        .ok ()
    else if packageID = "php" then killProcess env "php-cgi"
    else if packageID = "nodejs" ∨ packageID = "phpmyadmin" ∨ packageID = "adminer"
        ∨ packageID = "composer" then .ok ()
    else killProcess env packageID

/-- The observable side-effect steps of `StartService`, in program
order.  `runInit` stands for `initCmd.Run()`, which BLOCKS until the
one-time initialization command finishes; `spawnDaemon` stands for the
final non-blocking `cmd.Start()`. -/
inductive StartEv
  | mkDataDir
  | writeConfig
  | clearDataDir
  | runInit
  | spawnDaemon
deriving DecidableEq

/-- `StartService`: executable check, then the package-specific
branch; for mysql/mariadb the data directory is ensured, a config is
written when absent, and — when `data/ibdata1` is missing — the data
directory is cleared, re-created and `mysqld --initialize-insecure`
is run TO COMPLETION before the daemon `cmd.Start()`.  Returns the
ordered event list and the updated filesystem.  (`cmd.Start` failures
of the detached spawn are not modelled.) -/
def StartService (os : String) (baseDir : Path) (sys : Sys) (packageID version : String) :
    Except String (List StartEv) × Sys :=
  match GetPortablePackageByID packageID with
  | none => (.error ("package not found: " ++ packageID), sys)
  | some pkg =>
    let installPath := pjoin (pjoin baseDir pkg.installPath) version
    let execName := (lookupD pkg.executable os).getD ""
    if execName = "" then
      (.error ("no executable defined for " ++ packageID ++ " on " ++ os), sys)
    else
      let execPath :=
        if packageID = "php" ∧ os = "windows" then pjoin installPath "php-cgi.exe"
        else if packageID = "php" then pjoin installPath "bin/php-cgi"
        else pjoin installPath execName
      if ¬ sys.fileExists execPath then
        (.error ("executable not found: " ++ pathStr execPath), sys)
      else if packageID = "mysql" ∨ packageID = "mariadb" then
        let dataDir := pjoin installPath "data"
        let sys1 := sys.mkdirAll dataDir
        let configFile :=
          pjoin installPath (if os = "windows" then "my.ini" else "my.cnf")
        let cfgExists := sys1.fileExists configFile
        let sys2 :=
          if cfgExists then sys1
          else sys1.writeFile configFile
            ("[mysqld]\nport=3306\nbasedir=" ++ pathStr installPath ++
              "\ndatadir=" ++ pathStr dataDir ++ "\n")
        let evs1 : List StartEv :=
          [.mkDataDir] ++ (if cfgExists then [] else [.writeConfig])
        let ibdata := pjoin dataDir "ibdata1"
        if sys2.fileExists ibdata then
          (.ok (evs1 ++ [.spawnDaemon]), sys2)
        else
          let sys3 := (sys2.removeTree dataDir).mkdirAll dataDir
          (.ok (evs1 ++ [.clearDataDir, .mkDataDir, .runInit, .spawnDaemon]), sys3)
      else if packageID = "redis" then
        let configFile := pjoin installPath "redis.conf"
        if sys.fileExists configFile then (.ok [.spawnDaemon], sys)
        else
          (.ok [.writeConfig, .spawnDaemon],
            sys.writeFile configFile "bind 127.0.0.1\nport 6379\n")
      else
        (.ok [.spawnDaemon], sys)

/-- `ServiceStatus` (config/log paths `none` when the Go struct keeps
its empty-string zero value). -/
structure ServiceStatus where
  packageID : String
  name : String
  version : String
  running : Bool
  pid : Nat
  port : Nat
  installPath : Path
  configPath : Option Path
  logPath : Option Path

/-- `GetServiceStatus`: fails when the package is unknown or the
install directory is absent; daemon families probe the OS process
table by binary name; `nodejs` is "running" when its executable file
exists; every other package (composer, phpmyadmin, adminer) keeps
`Running: false`. -/
def GetServiceStatus (env : ProcEnv) (os : String) (baseDir : Path) (sys : Sys)
    (packageID version : String) : Except String ServiceStatus :=
  match GetPortablePackageByID packageID with
  | none => .error ("package not found: " ++ packageID)
  | some pkg =>
    let installPath := pjoin (pjoin baseDir pkg.installPath) version
    if ¬ sys.dirExists installPath then
      .error ("package not installed: " ++ packageID ++ " " ++ version)
    else
      let base : ServiceStatus :=
        { packageID := packageID
          name := pkg.name
          version := version
          running := false
          pid := 0
          port := pkg.ports.headD 0
          installPath := installPath
          configPath := if pkg.configFile ≠ "" then some (pjoin installPath pkg.configFile)
                        else none
          logPath := none }
      let st :=
        if packageID = "nginx" then
          { base with
            pid := env.pidOf "nginx"
            configPath := some (pjoin installPath "conf/nginx.conf")
            logPath := some (pjoin installPath "logs") }
        else if packageID = "mysql" ∨ packageID = "mariadb" then
          let p := env.pidOf "mysqld"
          { base with
            pid := if p = 0 then env.pidOf "mariadbd" else p
            configPath := some (pjoin installPath "my.ini")
            logPath := some (pjoin installPath "data") }
        else if packageID = "redis" then
          { base with
            pid := env.pidOf "redis-server"
            configPath := some (pjoin installPath "redis.conf") }
        else if packageID = "php" then
          { base with
            pid := env.pidOf "php-cgi"
            configPath := some (pjoin installPath "php.ini") }
        else if packageID = "nodejs" then
          let execPath := pjoin installPath ((lookupD pkg.executable os).getD "")
          if sys.fileExists execPath then { base with running := true } else base
        else base
      .ok (if 0 < st.pid then { st with running := true } else st)

/-! ## Config manager (`GetConfig` / `getDefaultConfig` in service.go) -/

/-- The per-package config path of `GetConfig`/`SaveConfig`: the
special-cased families first, then the catalog's `ConfigFile`, `none`
when the package defines no config file. -/
def configPathFor (pkg : PortablePackage) (os : String) (installPath : Path) : Option Path :=
  if pkg.id = "nginx" then some (pjoin installPath "conf/nginx.conf")
  else if pkg.id = "mysql" ∨ pkg.id = "mariadb" then
    some (pjoin installPath (if os = "windows" then "my.ini" else "my.cnf"))
  else if pkg.id = "redis" then some (pjoin installPath "redis.conf")
  else if pkg.id = "php" then some (pjoin installPath "php.ini")
  else if pkg.configFile ≠ "" then some (pjoin installPath pkg.configFile)
  else none

/-- `getDefaultConfig` in service.go: the synthesized default template
(empty string for packages without one).  `%s` splices of the install
path are string concatenations here; the php branch's backslash
replacement is the identity on slash-rendered paths. -/
def getDefaultConfig (packageID : String) (installPath : Path) : String :=
  if packageID = "nginx" then
    "worker_processes 1;\n\nevents \x7b\n    worker_connections 1024;\n\x7d\n\nhttp \x7b\n    include       mime.types;\n    default_type  application/octet-stream;\n    sendfile      on;\n    keepalive_timeout 65;\n\n    server \x7b\n        listen       80;\n        server_name  localhost;\n\n        root   " ++ pathStr installPath ++ "/html;\n        index  index.html index.htm index.php;\n\n        location / \x7b\n            try_files $uri $uri/ =404;\n        \x7d\n\n        location ~ \\.php$ \x7b\n            fastcgi_pass   127.0.0.1:9000;\n            fastcgi_index  index.php;\n            fastcgi_param  SCRIPT_FILENAME  $document_root$fastcgi_script_name;\n            include        fastcgi_params;\n        \x7d\n    \x7d\n\x7d\n"
  else if packageID = "mysql" ∨ packageID = "mariadb" then
    "[mysqld]\nport=3306\nbasedir=" ++ pathStr installPath ++
      "\ndatadir=" ++ pathStr installPath ++ "/data\nsocket=" ++ pathStr installPath ++
      "/mysql.sock\nlog-error=" ++ pathStr installPath ++
      "/data/error.log\npid-file=" ++ pathStr installPath ++
      "/mysql.pid\n\n[client]\nport=3306\nsocket=" ++ pathStr installPath ++ "/mysql.sock\n"
  else if packageID = "redis" then
    "bind 127.0.0.1\nport 6379\ndaemonize no\nloglevel notice\nlogfile \"redis-server.log\"\ndatabases 16\nsave 900 1\nsave 300 10\nsave 60 10000\n"
  else if packageID = "php" then
    "[PHP]\nengine = On\nshort_open_tag = Off\nprecision = 14\noutput_buffering = 4096\nzlib.output_compression = Off\nimplicit_flush = Off\nserialize_precision = -1\ndisable_functions =\ndisable_classes =\nzend.enable_gc = On\nexpose_php = Off\nmax_execution_time = 30\nmax_input_time = 60\nmemory_limit = 256M\nerror_reporting = E_ALL\ndisplay_errors = Off\ndisplay_startup_errors = Off\nlog_errors = On\nerror_log = \"" ++ pathStr (pjoin installPath "php_errors.log") ++ "\"\npost_max_size = 128M\nupload_max_filesize = 128M\nmax_file_uploads = 20\ndate.timezone = Asia/Jakarta\ncgi.fix_pathinfo=1\n\n[Session]\nsession.save_handler = files\nsession.use_strict_mode = 1\nsession.use_cookies = 1\nsession.use_only_cookies = 1\nsession.name = PHPSESSID\nsession.auto_start = 0\nsession.cookie_lifetime = 0\nsession.gc_maxlifetime = 1440\n"
  else ""

/-- `GetConfig`: package lookup, config-path selection, then a pure
read — on-disk content when the file exists, the synthesized default
template otherwise.  The system state is returned so the frame
property ("never writes") is explicit. -/
def GetConfig (os : String) (baseDir : Path) (sys : Sys) (packageID version : String) :
    Except String (Path × String) × Sys :=
  match GetPortablePackageByID packageID with
  | none => (.error ("package not found: " ++ packageID), sys)
  | some pkg =>
    let installPath := pjoin (pjoin baseDir pkg.installPath) version
    match configPathFor pkg os installPath with
    | none => (.error ("no config file for " ++ packageID), sys)
    | some configPath =>
      match sys.readFile configPath with
      | some content => (.ok (configPath, content), sys)
      | none => (.ok (configPath, getDefaultConfig packageID installPath), sys)

/-- The `running` flag of a status result, `none` on error. -/
def reportedRunning (r : Except String ServiceStatus) : Option Bool :=
  match r with
  | .ok st => some st.running
  | .error _ => none

/-! # Theorems: helper lemmas, claim theorems, witnesses and
counterexamples -/

/-- C3 (amended): stopping with no matching running process is
success for the daemon families with a graceful command (nginx,
mysql, mariadb, redis — a failed graceful command falls back to a
kill whose result is discarded) and for the packages with nothing to
stop (nodejs, phpmyadmin, adminer, composer); but for `php` the stop
result is the forceful kill's own result, which is an error exactly
when no `php-cgi` process matched. -/
theorem c3_stop_idempotent_amended :
    (∀ (env : ProcEnv) (version packageID : String),
      packageID = "nginx" ∨ packageID = "mysql" ∨ packageID = "mariadb" ∨
        packageID = "redis" ∨ packageID = "nodejs" ∨ packageID = "phpmyadmin" ∨
        packageID = "adminer" ∨ packageID = "composer" →
      StopService env packageID version = .ok ()) ∧
    (∀ (env : ProcEnv) (version : String), env.running "php-cgi" = false →
      StopService env "php" version = .error "exit status 1") ∧
    (∀ (env : ProcEnv) (version : String), env.running "php-cgi" = true →
      StopService env "php" version = .ok ()) := by
  refine ⟨?_, ?_, ?_⟩
  · intro env version packageID hmem
    rcases hmem with h|h|h|h|h|h|h|h <;> subst h
    · show (if env.graceful "nginx" = true then Except.ok () else Except.ok ()) =
        (Except.ok () : Except String Unit)
      cases env.graceful "nginx" <;> rfl
    · show (if env.graceful "mysql" = true then Except.ok () else Except.ok ()) =
        (Except.ok () : Except String Unit)
      cases env.graceful "mysql" <;> rfl
    · show (if env.graceful "mariadb" = true then Except.ok () else Except.ok ()) =
        (Except.ok () : Except String Unit)
      cases env.graceful "mariadb" <;> rfl
    · show (if env.graceful "redis" = true then Except.ok () else Except.ok ()) =
        (Except.ok () : Except String Unit)
      cases env.graceful "redis" <;> rfl
    · rfl
    · rfl
    · rfl
    · rfl
  · intro env version h
    have e1 : StopService env "php" version = killProcess env "php-cgi" := rfl
    rw [e1]
    unfold killProcess
    rw [h]
    rfl
  · intro env version h
    have e1 : StopService env "php" version = killProcess env "php-cgi" := rfl
    rw [e1]
    unfold killProcess
    rw [h]
    rfl

/-- Witness for C3's amended theorem: concrete stops with an empty
process table — success for composer and nginx, the kill error for
php. -/
theorem c3_stop_idempotent_amended_witness :
    StopService ⟨fun _ => false, fun _ => 0, fun _ => false⟩ "composer" "2.6.6" = .ok () ∧
    StopService ⟨fun _ => false, fun _ => 0, fun _ => false⟩ "nginx" "1.25.3" = .ok () ∧
    StopService ⟨fun _ => false, fun _ => 0, fun _ => false⟩ "php" "8.4.16" =
      .error "exit status 1" :=
  ⟨c3_stop_idempotent_amended.1 ⟨fun _ => false, fun _ => 0, fun _ => false⟩ "2.6.6"
      "composer" (Or.inr (Or.inr (Or.inr (Or.inr (Or.inr (Or.inr (Or.inr rfl))))))),
    c3_stop_idempotent_amended.1 ⟨fun _ => false, fun _ => 0, fun _ => false⟩ "1.25.3"
      "nginx" (Or.inl rfl),
    c3_stop_idempotent_amended.2.1 ⟨fun _ => false, fun _ => 0, fun _ => false⟩ "8.4.16" rfl⟩

/-- Counterexample to C3 as stated: php is an installable package
family, yet stopping it with no matching `php-cgi` process running
returns the `pkill` failure (`pkill -9` exits non-zero when nothing
matched, and `StopService` returns that result directly), not
success. -/
theorem c3_counterexample :
    StopService ⟨fun _ => false, fun _ => 0, fun _ => false⟩ "php" "8.4.16" =
      .error "exit status 1" := rfl

/-- C4 (amended): uninstall fails when the install directory does not
exist; when it exists and the recursive removal succeeds, the
directory tree is deleted and the matching metadata rows are removed;
but when the removal fails, the error is returned IMMEDIATELY and the
metadata store is left untouched — the deletion is conditional on a
successful removal, not unconditional. -/
theorem c4_uninstall_amended (removeFails : Bool) (baseDir : Path) (sys : Sys)
    (packageID version : String) (pkg : PortablePackage)
    (hpkg : GetPortablePackageByID packageID = some pkg) :
    (sys.dirExists (pjoin (pjoin baseDir pkg.installPath) version) = false →
      UninstallPortablePackage removeFails baseDir sys packageID version =
        (.error ("package not installed: " ++ packageID ++ " " ++ version), sys)) ∧
    (sys.dirExists (pjoin (pjoin baseDir pkg.installPath) version) = true →
      removeFails = true →
      (UninstallPortablePackage removeFails baseDir sys packageID version).1 =
          .error "remove failed" ∧
      ((UninstallPortablePackage removeFails baseDir sys packageID version).2).db = sys.db) ∧
    (sys.dirExists (pjoin (pjoin baseDir pkg.installPath) version) = true →
      removeFails = false →
      (UninstallPortablePackage removeFails baseDir sys packageID version).1 = .ok () ∧
      ((UninstallPortablePackage removeFails baseDir sys packageID version).2).dirs =
        (sys.removeTree (pjoin (pjoin baseDir pkg.installPath) version)).dirs ∧
      ((UninstallPortablePackage removeFails baseDir sys packageID version).2).db =
        sys.db.filter (fun r => ¬ (r.1 = packageID ∧ r.2 = version))) := by
  refine ⟨?_, ?_, ?_⟩
  · intro habs
    simp only [UninstallPortablePackage, hpkg, habs]
    rfl
  · intro hex hrf
    subst hrf
    simp only [UninstallPortablePackage, hpkg, hex]
    exact ⟨rfl, rfl⟩
  · intro hex hrf
    subst hrf
    simp only [UninstallPortablePackage, hpkg, hex]
    exact ⟨rfl, rfl, rfl⟩

/-- Witness for C4's amended theorem: a concrete installed mysql
8.0.35 whose removal succeeds — directory gone, metadata row gone. -/
theorem c4_uninstall_amended_witness :
    (UninstallPortablePackage false ["base"]
        ⟨[["base", "database", "mysql", "8.0.35"]], [], [("mysql", "8.0.35")]⟩
        "mysql" "8.0.35").1 = .ok () ∧
    ((UninstallPortablePackage false ["base"]
        ⟨[["base", "database", "mysql", "8.0.35"]], [], [("mysql", "8.0.35")]⟩
        "mysql" "8.0.35").2).dirs =
      (Sys.removeTree
        ⟨[["base", "database", "mysql", "8.0.35"]], [], [("mysql", "8.0.35")]⟩
        (pjoin (pjoin ["base"] mysqlPkg.installPath) "8.0.35")).dirs ∧
    ((UninstallPortablePackage false ["base"]
        ⟨[["base", "database", "mysql", "8.0.35"]], [], [("mysql", "8.0.35")]⟩
        "mysql" "8.0.35").2).db =
      List.filter (fun r => ¬ (r.1 = "mysql" ∧ r.2 = "8.0.35")) [("mysql", "8.0.35")] :=
  (c4_uninstall_amended false ["base"]
    ⟨[["base", "database", "mysql", "8.0.35"]], [], [("mysql", "8.0.35")]⟩
    "mysql" "8.0.35" mysqlPkg rfl).2.2 rfl rfl

/-- Counterexample to C4 as stated: with mysql 8.0.35 installed and
its metadata row present, a failing `os.RemoveAll` makes
`UninstallPortablePackage` return the removal error with the metadata
row STILL in the store — the claimed unconditional metadata deletion
does not happen. -/
theorem c4_counterexample :
    (UninstallPortablePackage true ["base"]
        ⟨[["base", "database", "mysql", "8.0.35"]], [], [("mysql", "8.0.35")]⟩
        "mysql" "8.0.35").1 = .error "remove failed" ∧
    ((UninstallPortablePackage true ["base"]
        ⟨[["base", "database", "mysql", "8.0.35"]], [], [("mysql", "8.0.35")]⟩
        "mysql" "8.0.35").2).db = [("mysql", "8.0.35")] :=
  ⟨rfl, rfl⟩

theorem find?_filter_key (l : List (Path × String)) (p q : Path) (h : q ≠ p) :
    List.find? (fun f => f.1 == q) (l.filter (fun f => f.1 ≠ p)) =
      List.find? (fun f => f.1 == q) l := by
  induction l with
  | nil => rfl
  | cons a l ih =>
    rw [List.filter_cons]
    by_cases hap : a.1 = p
    · have hd : (decide (a.1 ≠ p)) = false := by simp [hap]
      have h1 : (a.1 == q) = false := by
        rw [beq_eq_false_iff_ne, hap]
        exact fun hc => h hc.symm
      rw [hd, if_neg (by simp), List.find?_cons, h1, ih]
    · have hd : (decide (a.1 ≠ p)) = true := by simp [hap]
      rw [hd, if_pos rfl, List.find?_cons, List.find?_cons]
      cases haq : (a.1 == q)
      · exact ih
      · rfl

/-- Writing one file leaves the existence of every other file
unchanged. -/
theorem fileExists_writeFile_ne (sys : Sys) (p q : Path) (c : String) (h : q ≠ p) :
    (sys.writeFile p c).fileExists q = sys.fileExists q := by
  unfold Sys.writeFile Sys.fileExists
  simp only [List.find?_cons]
  have h1 : (p == q) = false := beq_eq_false_iff_ne.mpr (fun hc => h hc.symm)
  rw [h1, find?_filter_key sys.files p q h]

/-- The shared shape of the mysql/mariadb branch of `StartService`:
whenever the call succeeds and the data directory lacks `ibdata1`, the
event list ends with the single daemon spawn and the synchronous
initialization run lies strictly before it. -/
theorem startService_db_branch (os : String) (baseDir : Path) (sys : Sys)
    (packageID version : String) (pkg : PortablePackage) (evs : List StartEv)
    (hpkg : GetPortablePackageByID packageID = some pkg)
    (hdb : packageID = "mysql" ∨ packageID = "mariadb")
    (hphp : packageID ≠ "php")
    (hok : (StartService os baseDir sys packageID version).1 = .ok evs)
    (hib : sys.fileExists
      (pjoin (pjoin (pjoin (pjoin baseDir pkg.installPath) version) "data") "ibdata1")
        = false) :
    ∃ pre, evs = pre ++ [StartEv.spawnDaemon] ∧ StartEv.runInit ∈ pre ∧
      StartEv.spawnDaemon ∉ pre := by
  simp only [StartService, hpkg] at hok
  rw [if_neg (show ¬ (packageID = "php" ∧ os = "windows") from fun hc => hphp hc.1),
      if_neg (show ¬ (packageID = "php") from hphp)] at hok
  by_cases hEN : (lookupD pkg.executable os).getD "" = ""
  · rw [if_pos hEN] at hok
    exact Except.noConfusion hok
  · rw [if_neg hEN] at hok
    by_cases hEX : sys.fileExists
        (pjoin (pjoin (pjoin baseDir pkg.installPath) version)
          ((lookupD pkg.executable os).getD "")) = true
    · rw [if_neg (not_not_intro hEX)] at hok
      rw [if_pos hdb] at hok
      have hmkfiles : ∀ p : Path,
          (Sys.mkdirAll sys
            (pjoin (pjoin (pjoin baseDir pkg.installPath) version) "data")).fileExists p =
              sys.fileExists p := fun _ => rfl
      by_cases hcfg : (Sys.mkdirAll sys
          (pjoin (pjoin (pjoin baseDir pkg.installPath) version) "data")).fileExists
            (pjoin (pjoin (pjoin baseDir pkg.installPath) version)
              (if os = "windows" then "my.ini" else "my.cnf")) = true
      · simp only [if_pos hcfg] at hok
        rw [hmkfiles, hib] at hok
        rw [if_neg (show ¬ (false = true) by simp)] at hok
        have hevs : evs = [StartEv.mkDataDir] ++
            [StartEv.clearDataDir, StartEv.mkDataDir, StartEv.runInit, StartEv.spawnDaemon] :=
          (Except.ok.inj hok).symm
        refine ⟨[StartEv.mkDataDir, StartEv.clearDataDir, StartEv.mkDataDir,
          StartEv.runInit], ?_, by decide, by decide⟩
        rw [hevs]
        rfl
      · simp only [if_neg hcfg] at hok
        have hne : pjoin (pjoin (pjoin (pjoin baseDir pkg.installPath) version) "data")
              "ibdata1" ≠
            pjoin (pjoin (pjoin baseDir pkg.installPath) version)
              (if os = "windows" then "my.ini" else "my.cnf") := by
          intro hcontr
          have hlen := congrArg List.length hcontr
          by_cases hw : os = "windows" <;>
            simp [hw, pjoin, comps, rawComps, splitSlash, List.length_append] at hlen
        rw [fileExists_writeFile_ne _ _ _ _ hne, hmkfiles, hib] at hok
        rw [if_neg (show ¬ (false = true) by simp)] at hok
        have hevs : evs = ([StartEv.mkDataDir] ++ [StartEv.writeConfig]) ++
            [StartEv.clearDataDir, StartEv.mkDataDir, StartEv.runInit, StartEv.spawnDaemon] :=
          (Except.ok.inj hok).symm
        refine ⟨[StartEv.mkDataDir, StartEv.writeConfig, StartEv.clearDataDir,
          StartEv.mkDataDir, StartEv.runInit], ?_, by decide, by decide⟩
        rw [hevs]
        rfl
    · rw [if_pos hEX] at hok
      exact Except.noConfusion hok

/-- C5: for every database-engine start (mysql or mariadb) that
succeeds while the data directory lacks its primary data file
(`ibdata1` absent), the returned event sequence — which is program
order, and in which `runInit` stands for the `initCmd.Run()` call
that blocks until the initialization command completes — has the
one-time initialization strictly before the single, final daemon
spawn: no spawn event precedes or accompanies the initialization. -/
theorem c5_db_init_before_daemon (os : String) (baseDir : Path) (sys : Sys)
    (packageID version : String) (evs : List StartEv)
    (hid : packageID = "mysql" ∨ packageID = "mariadb")
    (hok : (StartService os baseDir sys packageID version).1 = .ok evs)
    (hib : ∀ pkg, GetPortablePackageByID packageID = some pkg →
      sys.fileExists
        (pjoin (pjoin (pjoin (pjoin baseDir pkg.installPath) version) "data") "ibdata1")
          = false) :
    ∃ pre, evs = pre ++ [StartEv.spawnDaemon] ∧ StartEv.runInit ∈ pre ∧
      StartEv.spawnDaemon ∉ pre := by
  rcases hid with h | h <;> subst h
  · exact startService_db_branch os baseDir sys "mysql" version mysqlPkg evs rfl
      (Or.inl rfl) (by decide) hok (hib mysqlPkg rfl)
  · exact startService_db_branch os baseDir sys "mariadb" version mariadbPkg evs rfl
      (Or.inr rfl) (by decide) hok (hib mariadbPkg rfl)

/-- Witness for C5: a concrete fresh mysql 8.0.35 install on linux
(executable present, no config, no `data/ibdata1`): the start call
runs `[mkDataDir, writeConfig, clearDataDir, mkDataDir, runInit,
spawnDaemon]`, and the theorem splits it around the final spawn. -/
theorem c5_db_init_before_daemon_witness :
    ∃ pre, [StartEv.mkDataDir, StartEv.writeConfig, StartEv.clearDataDir,
        StartEv.mkDataDir, StartEv.runInit, StartEv.spawnDaemon] =
      pre ++ [StartEv.spawnDaemon] ∧ StartEv.runInit ∈ pre ∧
      StartEv.spawnDaemon ∉ pre :=
  c5_db_init_before_daemon "linux" ["base"]
    ⟨[], [(["base", "database", "mysql", "8.0.35", "bin", "mysqld"], "")], []⟩
    "mysql" "8.0.35"
    [StartEv.mkDataDir, StartEv.writeConfig, StartEv.clearDataDir,
      StartEv.mkDataDir, StartEv.runInit, StartEv.spawnDaemon]
    (Or.inl rfl) rfl
    (fun pkg h => by
      have h2 : some mysqlPkg = some pkg := h
      cases h2
      rfl)

theorem chunkTotals_le (ns : List Nat) (acc : Nat) :
    ∀ d ∈ chunkTotals ns acc, d ≤ acc + ns.sum := by
  induction ns generalizing acc with
  | nil => intro d hd; cases hd
  | cons n ns ih =>
    intro d hd
    rw [chunkTotals] at hd
    rcases List.mem_cons.mp hd with h | h
    · subst h
      rw [List.sum_cons]
      omega
    · have := ih (acc + n) d h
      rw [List.sum_cons]
      omega

theorem dlprogress_bounds (d : ℕ) (t : ℤ) (hpos : 0 < t) (hd : (d : ℤ) ≤ t) :
    0 ≤ (d : ℚ) / (t : ℚ) * 50 ∧ (d : ℚ) / (t : ℚ) * 50 ≤ 50 := by
  have ht : (0 : ℚ) < (t : ℚ) := by exact_mod_cast hpos
  constructor
  · positivity
  · have hdq : (d : ℚ) ≤ (t : ℚ) := by exact_mod_cast hd
    have h1 : (d : ℚ) / (t : ℚ) ≤ 1 := (div_le_one ht).mpr hdq
    nlinarith

/-- Every entry of the download-progress callback list carries a
running byte total from `chunkTotals` (with the response's content
length as its total). -/
theorem mem_dlTrace (resp : HttpResponse) (p0 p : InstallProgress)
    (hp : p ∈ (downloadFile resp).2.filterMap (fun dt =>
      if 0 < dt.2 then
        some { p0 with
               progress := (dt.1 : ℚ) / (dt.2 : ℚ) * 50
               message := "Downloading..." }
      else none)) :
    ∃ d : ℕ, d ∈ chunkTotals resp.chunks 0 ∧
      p = { p0 with
            progress := (d : ℚ) / (resp.contentLength : ℚ) * 50
            message := "Downloading..." } := by
  unfold downloadFile at hp
  by_cases h : resp.statusCode ≠ 200
  · rw [if_pos h] at hp
    simp at hp
  · rw [if_neg h] at hp
    simp only [List.filterMap_map] at hp
    rcases List.mem_filterMap.mp hp with ⟨d, hd, hsome⟩
    simp only [Function.comp] at hsome
    by_cases hq : (0 : Int) < resp.contentLength
    · rw [if_pos hq] at hsome
      exact ⟨d, hd, (Option.some.inj hsome).symm⟩
    · rw [if_neg hq] at hsome
      exact Option.noConfusion hsome

/-- C7: with a known positive total size, every callback snapshot of
the downloading stage has progress equal to
`bytesDownloaded/totalBytes * 50` for the running byte total reached
at that point, and that value lies in `[0, 50]` (the body never
exceeds the announced content length); a successful install's
returned progress is `complete` at exactly 100, and a failing
install's returned progress is `error` carrying the triggering error
string. -/
theorem c7_install_progress_and_terminal (env : InstallEnv) (sys : Sys)
    (packageID version : String)
    (hpos : 0 < env.resp.contentLength)
    (hle : (env.resp.chunks.sum : Int) ≤ env.resp.contentLength) :
    (∀ p ∈ (InstallPortablePackage env sys packageID version).trace,
        p.status = "downloading" →
        ∃ d : ℕ, (d : Int) ≤ env.resp.contentLength ∧
          p.progress = (d : ℚ) / ((env.resp.contentLength : ℤ) : ℚ) * 50 ∧
          0 ≤ p.progress ∧ p.progress ≤ 50) ∧
    (∀ q, (InstallPortablePackage env sys packageID version).err = none →
        (InstallPortablePackage env sys packageID version).prog = some q →
        q.status = "complete" ∧ q.progress = 100) ∧
    (∀ m q, (InstallPortablePackage env sys packageID version).err = some m →
        (InstallPortablePackage env sys packageID version).prog = some q →
        q.status = "error" ∧ q.error = m) := by
  have hdl : ∀ p ∈ (downloadFile env.resp).2.filterMap (fun dt =>
      if 0 < dt.2 then
        some { (⟨packageID, version, "downloading", 0, "Starting download...",
                 pjoin (pjoin env.baseDir
                   ((GetPortablePackageByID packageID).elim "" (fun pkg => pkg.installPath)))
                   version, ""⟩ : InstallProgress) with
               progress := (dt.1 : ℚ) / (dt.2 : ℚ) * 50
               message := "Downloading..." }
      else none),
      p.status = "downloading" →
      ∃ d : ℕ, (d : Int) ≤ env.resp.contentLength ∧
        p.progress = (d : ℚ) / ((env.resp.contentLength : ℤ) : ℚ) * 50 ∧
        0 ≤ p.progress ∧ p.progress ≤ 50 := by
    intro p hp _
    rcases mem_dlTrace env.resp _ p hp with ⟨d, hd, hpe⟩
    have hdle : (d : Int) ≤ env.resp.contentLength := by
      have h1 : d ≤ env.resp.chunks.sum := by
        have := chunkTotals_le env.resp.chunks 0 d hd
        omega
      have h2 : (d : Int) ≤ (env.resp.chunks.sum : Int) := by exact_mod_cast h1
      omega
    rcases dlprogress_bounds d env.resp.contentLength hpos hdle with ⟨hb0, hb5⟩
    exact ⟨d, hdle, by rw [hpe], by rw [hpe]; exact hb0, by rw [hpe]; exact hb5⟩
  cases hP : GetPortablePackageByID packageID with
  | none =>
    refine ⟨?_, ?_, ?_⟩
    · intro p hp
      simp only [InstallPortablePackage, hP] at hp
      simp at hp
    · intro q _ hprog
      simp only [InstallPortablePackage, hP] at hprog
      exact Option.noConfusion hprog
    · intro m q _ hprog
      simp only [InstallPortablePackage, hP] at hprog
      exact Option.noConfusion hprog
  | some pkg =>
    cases hU : GetDownloadURL pkg version env.os env.arch with
    | error e =>
      refine ⟨?_, ?_, ?_⟩
      · intro p hp
        simp only [InstallPortablePackage, hP, hU] at hp
        simp at hp
      · intro q _ hprog
        simp only [InstallPortablePackage, hP, hU] at hprog
        exact Option.noConfusion hprog
      · intro m q _ hprog
        simp only [InstallPortablePackage, hP, hU] at hprog
        exact Option.noConfusion hprog
    | ok url =>
      have hdl' := hdl
      rw [hP] at hdl'
      cases hres : (downloadFile env.resp).1 with
      | error m0 =>
        refine ⟨?_, ?_, ?_⟩
        · intro p hp hst
          simp only [InstallPortablePackage, hP, hU, hres] at hp
          rcases List.mem_cons.mp hp with hp | hp
          · refine ⟨0, by positivity, ?_, ?_, ?_⟩ <;> rw [hp] <;> norm_num
          · exact hdl' p hp hst
        · intro q herr
          simp only [InstallPortablePackage, hP, hU, hres] at herr
          exact Option.noConfusion herr
        · intro m q herr hprog
          simp only [InstallPortablePackage, hP, hU, hres] at herr hprog
          refine ⟨?_, ?_⟩ <;>
            rw [← Option.some.inj hprog] <;>
            simp [Option.some.inj herr]
      | ok u =>
        cases hE : env.extractOutcome with
        | error m0 =>
          refine ⟨?_, ?_, ?_⟩
          · intro p hp hst
            simp only [InstallPortablePackage, hP, hU, hres, hE] at hp
            rcases List.mem_cons.mp hp with hp | hp
            · refine ⟨0, by omega, ?_, ?_, ?_⟩ <;> rw [hp] <;> norm_num
            · rcases List.mem_append.mp hp with hp | hp
              · exact hdl' p hp hst
              · rw [List.mem_singleton.mp hp] at hst
                simp at hst
          · intro q herr
            simp only [InstallPortablePackage, hP, hU, hres, hE] at herr
            exact Option.noConfusion herr
          · intro m q herr hprog
            simp only [InstallPortablePackage, hP, hU, hres, hE] at herr hprog
            refine ⟨?_, ?_⟩ <;>
              rw [← Option.some.inj hprog] <;>
              simp [Option.some.inj herr]
        | ok u2 =>
          refine ⟨?_, ?_, ?_⟩
          · intro p hp hst
            simp only [InstallPortablePackage, hP, hU, hres, hE] at hp
            rcases List.mem_cons.mp hp with hp | hp
            · refine ⟨0, by omega, ?_, ?_, ?_⟩ <;> rw [hp] <;> norm_num
            · rcases List.mem_append.mp hp with hp | hp
              · exact hdl' p hp hst
              · simp only [List.mem_cons, List.not_mem_nil, or_false] at hp
                rcases hp with hp | hp | hp <;> rw [hp] at hst <;> simp at hst
          · intro q _ hprog
            simp only [InstallPortablePackage, hP, hU, hres, hE] at hprog
            rw [← Option.some.inj hprog]
            exact ⟨rfl, rfl⟩
          · intro m q herr
            simp only [InstallPortablePackage, hP, hU, hres, hE] at herr
            exact Option.noConfusion herr

/-- Witness for C7: a concrete install of composer 2.6.6 (an
"all"-key download) with a 100-byte body arriving in two chunks and a
successful extraction: the callback trace and the terminal snapshot
are computed and satisfy all three parts. -/
theorem c7_install_progress_and_terminal_witness :
    (∀ p ∈ (InstallPortablePackage
        ⟨"linux", "amd64", ["base"], ⟨200, 100, [60, 40], none⟩, .ok (), []⟩
        ⟨[], [], []⟩ "composer" "2.6.6").trace,
      p.status = "downloading" →
      ∃ d : ℕ, (d : Int) ≤ (100 : Int) ∧
        p.progress = (d : ℚ) / (((100 : Int) : ℤ) : ℚ) * 50 ∧
        0 ≤ p.progress ∧ p.progress ≤ 50) ∧
    (∀ q, (InstallPortablePackage
        ⟨"linux", "amd64", ["base"], ⟨200, 100, [60, 40], none⟩, .ok (), []⟩
        ⟨[], [], []⟩ "composer" "2.6.6").err = none →
      (InstallPortablePackage
        ⟨"linux", "amd64", ["base"], ⟨200, 100, [60, 40], none⟩, .ok (), []⟩
        ⟨[], [], []⟩ "composer" "2.6.6").prog = some q →
      q.status = "complete" ∧ q.progress = 100) ∧
    (∀ m q, (InstallPortablePackage
        ⟨"linux", "amd64", ["base"], ⟨200, 100, [60, 40], none⟩, .ok (), []⟩
        ⟨[], [], []⟩ "composer" "2.6.6").err = some m →
      (InstallPortablePackage
        ⟨"linux", "amd64", ["base"], ⟨200, 100, [60, 40], none⟩, .ok (), []⟩
        ⟨[], [], []⟩ "composer" "2.6.6").prog = some q →
      q.status = "error" ∧ q.error = m) :=
  c7_install_progress_and_terminal
    ⟨"linux", "amd64", ["base"], ⟨200, 100, [60, 40], none⟩, .ok (), []⟩
    ⟨[], [], []⟩ "composer" "2.6.6" (by decide) (by decide)

/-- C6 (amended): `downloadFile` fails — with the status attached and
without reading the body — exactly for statuses other than 200
(`http.StatusOK`), rather than for all non-2xx statuses; for status
200 with a cleanly streaming body the bytes are written and no error
is raised. -/
theorem c6_download_status_amended (resp : HttpResponse) :
    (resp.statusCode ≠ 200 →
      downloadFile resp = (.error ("download failed: " ++ toString resp.statusCode), [])) ∧
    (resp.statusCode = 200 → resp.streamErr = none →
      downloadFile resp =
        (.ok (), (chunkTotals resp.chunks 0).map (fun d => (d, resp.contentLength)))) := by
  constructor
  · intro h
    unfold downloadFile
    rw [if_pos h]
  · intro h hs
    unfold downloadFile
    rw [if_neg (fun hc => hc h), hs]

/-- Witness for C6's amended theorem: status 500 fails with the
status attached; status 200 streams two chunks cleanly. -/
theorem c6_download_status_amended_witness :
    downloadFile ⟨500, 100, [], none⟩ = (.error "download failed: 500", []) ∧
    downloadFile ⟨200, 100, [60, 40], none⟩ =
      (.ok (), (chunkTotals [60, 40] 0).map (fun d => (d, (100 : Int)))) :=
  ⟨(c6_download_status_amended ⟨500, 100, [], none⟩).1 (by decide),
    (c6_download_status_amended ⟨200, 100, [60, 40], none⟩).2 rfl rfl⟩

/-- Counterexample to C6 as stated: 204 is a 2xx success status and
the body streams cleanly, yet the fetch fails — the code accepts only
exactly 200. -/
theorem c6_counterexample :
    (200 ≤ 204 ∧ 204 < 300) ∧
    downloadFile ⟨204, 10, [10], none⟩ = (.error "download failed: 204", []) :=
  ⟨⟨by norm_num, by norm_num⟩, rfl⟩

theorem slash_mem_key (os arch : String) : '/' ∈ (os ++ "/" ++ arch).data := by
  rw [String.data_append, String.data_append]
  have h : '/' ∈ "/".data := by decide
  exact List.mem_append_left _ (List.mem_append_right _ h)

/-- An exact `"{os}/{arch}"` key always contains a slash, so it can
never collide with the wildcard key `"all"`. -/
theorem osArchKey_ne_all (os arch : String) : os ++ "/" ++ arch ≠ "all" := by
  intro h
  have hm := slash_mem_key os arch
  rw [h] at hm
  revert hm
  decide

theorem catalog_no_mixed_keys :
    PortableCatalog.all (fun pkg => pkg.versions.all noMixedKeys) = true := by decide

theorem getDownloadURL_eq_of_noMixed (pkg : PortablePackage) (version os arch : String)
    (h : ∀ v ∈ pkg.versions, noMixedKeys v = true) :
    GetDownloadURL pkg version os arch = resolveSpec pkg version os arch := by
  cases hfind : pkg.versions.find? (fun v => v.version == version) with
  | none => simp only [GetDownloadURL, resolveSpec, hfind]
  | some tv =>
    have htv : tv ∈ pkg.versions := List.mem_of_find?_eq_some hfind
    have hnm := h tv htv
    unfold noMixedKeys at hnm
    rw [Bool.or_eq_true, List.all_eq_true, List.all_eq_true] at hnm
    rcases hnm with hall | hne
    · have hfe : tv.downloads.find? (fun kv => kv.1 == os ++ "/" ++ arch) = none := by
        rw [List.find?_eq_none]
        intro kv hkv hc
        have hk : kv.1 = "all" := eq_of_beq (hall kv hkv)
        have hc' : kv.1 = os ++ "/" ++ arch := eq_of_beq hc
        exact osArchKey_ne_all os arch (hc'.symm.trans hk)
      have hex : lookupD tv.downloads (os ++ "/" ++ arch) = none := by
        unfold lookupD
        rw [hfe, Option.map_none']
      simp only [GetDownloadURL, resolveSpec, hfind, hex]
    · have hfa : tv.downloads.find? (fun kv => kv.1 == "all") = none := by
        rw [List.find?_eq_none]
        intro kv hkv hc
        have hb := hne kv hkv
        rw [hc] at hb
        exact absurd hb (by decide)
      have hallnone : lookupD tv.downloads "all" = none := by
        unfold lookupD
        rw [hfa, Option.map_none']
      simp only [GetDownloadURL, resolveSpec, hfind, hallnone]

/-- C2: for every package and version in the catalog (and every
platform/architecture), resolving the download location behaves as the
spec's lookup order describes: the result coincides with the resolver
that tries the exact `"{os}/{arch}"` key first and falls back to
`"all"` only when it is absent, fails with `versionNotFound` when the
version string is not in the package's version list, and fails with
`noDownloadForPlatform` when neither key matches.  (The implementation
happens to probe `"all"` before the exact key, but no catalog version
carries both kinds of key, so the two orders agree on every input.) -/
theorem c2_getDownloadURL_follows_spec_order :
    ∀ pkg ∈ PortableCatalog, ∀ version os arch,
      GetDownloadURL pkg version os arch = resolveSpec pkg version os arch := by
  intro pkg hpkg version os arch
  apply getDownloadURL_eq_of_noMixed
  intro v hv
  have hcat := catalog_no_mixed_keys
  rw [List.all_eq_true] at hcat
  have hp := hcat pkg hpkg
  rw [List.all_eq_true] at hp
  exact hp v hv

/-- Witness for C2: instantiated at `mysql` 8.0.35 on linux/amd64. -/
theorem c2_getDownloadURL_follows_spec_order_witness :
    GetDownloadURL mysqlPkg "8.0.35" "linux" "amd64" =
      resolveSpec mysqlPkg "8.0.35" "linux" "amd64" :=
  c2_getDownloadURL_follows_spec_order mysqlPkg (by decide) "8.0.35" "linux" "amd64"

/-- `zipScan` under a non-empty current root: it stays on that root
and succeeds exactly when every remaining entry keeps the root and is
not a top-level file. -/
theorem zipScan_root_ne (root : String) (hr : root ≠ "") (entries : List ZipEntry) :
    zipScan entries root =
      (entries.all (fun e => !rootLevelFile e && (topComp e.name == root)), root) := by
  induction entries with
  | nil => rfl
  | cons e rest ih =>
    rw [zipScan, List.all_cons]
    by_cases h1 : rootLevelFile e = true
    · simp [h1]
    · have h1' : rootLevelFile e = false := by
        cases h : rootLevelFile e
        · rfl
        · exact absurd h h1
      have hb : (root == "") = false := beq_eq_false_iff_ne.mpr hr
      by_cases h2 : topComp e.name = root
      · simp only [h1', hb, Bool.false_eq_true, if_false, h2, bne_self_eq_false,
          Bool.not_false, beq_self_eq_true, Bool.and_self, Bool.true_and, ih]
      · have hb2 : (topComp e.name != root) = true := by
          simp [bne, beq_eq_false_iff_ne.mpr h2]
        simp only [h1', hb, Bool.false_eq_true, if_false, hb2, if_true,
          Bool.not_false, Bool.true_and, beq_eq_false_iff_ne.mpr h2, Bool.false_and,
          Bool.and_false]

/-- The zip stripping condition holds exactly when the spec's
root-stripping condition does, for well-formed entry names (non-empty
first component, i.e. relative slash-separated paths). -/
theorem zipStripRoot_iff_specSingleRoot (entries : List ZipEntry)
    (hwf : ∀ e ∈ entries, topComp e.name ≠ "") :
    zipStripRoot entries = true ↔ SpecSingleRoot entries := by
  cases entries with
  | nil =>
    constructor
    · intro h
      exact absurd h (by decide)
    · intro h
      exact absurd rfl h.1
  | cons e rest =>
    unfold zipStripRoot
    rw [zipScan]
    by_cases h1 : rootLevelFile e = true
    · simp only [h1, if_true]
      constructor
      · intro h
        exact absurd h (by decide)
      · intro h
        have := h.2.2 e (by simp)
        rw [h1] at this
        exact absurd this (by decide)
    · have h1' : rootLevelFile e = false := by
        cases h : rootLevelFile e
        · rfl
        · exact absurd h h1
      have ht : topComp e.name ≠ "" := hwf e (by simp)
      have hbt : (topComp e.name == "") = false := beq_eq_false_iff_ne.mpr ht
      simp only [h1', Bool.false_eq_true, if_false, beq_self_eq_true, if_true,
        zipScan_root_ne (topComp e.name) ht rest, hbt, Bool.not_false, Bool.and_true]
      rw [List.all_eq_true]
      constructor
      · intro h
        refine ⟨by simp, ⟨topComp e.name, ?_⟩, ?_⟩
        · intro x hx
          rcases List.mem_cons.mp hx with hx | hx
          · rw [hx]
          · have := h x hx
            rw [Bool.and_eq_true] at this
            exact eq_of_beq this.2
        · intro x hx
          rcases List.mem_cons.mp hx with hx | hx
          · rw [hx]; exact h1'
          · have := h x hx
            rw [Bool.and_eq_true] at this
            cases hrl : rootLevelFile x
            · rfl
            · rw [hrl] at this
              exact absurd this.1 (by decide)
      · rintro ⟨-, ⟨t, htall⟩, hnf⟩ x hx
        have hxt : topComp x.name = topComp e.name := by
          rw [htall x (List.mem_cons_of_mem e hx), htall e (List.mem_cons_self e rest)]
        rw [hnf x (List.mem_cons_of_mem e hx), hxt]
        simp

/-- C1 (amended): root-stripping as specified holds for ZIP archives —
for well-formed entry names the single common top-level component is
stripped exactly when all entries share one top-level directory and no
file sits at the top level, stripped extraction drops the first
component, and unstripped extraction keeps paths as-is — but for tar
archives (`extractTar`, and `extractTarXz` via
`tar --strip-components=1`) the first path component is dropped from
every entry unconditionally, with no inspection of top-level names. -/
theorem c1_root_strip_amended :
    (∀ entries : List ZipEntry, (∀ e ∈ entries, topComp e.name ≠ "") →
      (zipStripRoot entries = true ↔ SpecSingleRoot entries)) ∧
    (∀ entries : List ZipEntry, zipStripRoot entries = true →
      extractZipEntries entries = entries.filterMap (fun e =>
        if (rawComps e.name).length > 1 then
          some ((rawComps e.name).drop 1 |>.filter (fun c => c ≠ ""), e.isDir)
        else none)) ∧
    (∀ entries : List ZipEntry, zipStripRoot entries = false →
      extractZipEntries entries =
        entries.map (fun e => ((rawComps e.name).filter (fun c => c ≠ ""), e.isDir))) ∧
    (∀ entries : List TarEntry, extractTarEntries entries = entries.filterMap (fun e =>
      match e.typeflag with
      | .dir => some (comps (tarOutName e.name), true)
      | .reg => some (comps (tarOutName e.name), false)
      | .other => none)) := by
  refine ⟨zipStripRoot_iff_specSingleRoot, ?_, ?_, fun _ => rfl⟩
  · intro entries hs
    unfold extractZipEntries
    rw [hs]
    rfl
  · have hmap : ∀ l : List ZipEntry, List.filterMap (zipEntryOut false) l =
        l.map (fun e => ((rawComps e.name).filter (fun c => c ≠ ""), e.isDir)) := by
      intro l
      induction l with
      | nil => rfl
      | cons e rest ih => simp [List.filterMap_cons, zipEntryOut, ih]
    intro entries hs
    unfold extractZipEntries
    rw [hs, hmap]

/-- Witness for C1's amended theorem: a zip archive wrapped in a
single `pkg-1.0/` directory is stripped; the same two paths as tar
entries are (also) stripped, and a two-root zip archive is extracted
as-is. -/
theorem c1_root_strip_amended_witness :
    zipStripRoot [⟨"pkg-1.0/", true⟩, ⟨"pkg-1.0/bin/app", false⟩] = true ∧
    SpecSingleRoot [⟨"pkg-1.0/", true⟩, ⟨"pkg-1.0/bin/app", false⟩] ∧
    extractZipEntries [⟨"pkg-1.0/", true⟩, ⟨"pkg-1.0/bin/app", false⟩] =
      [([], true), (["bin", "app"], false)] := by
  refine ⟨by decide, ?_, by decide⟩
  have h := (c1_root_strip_amended.1 [⟨"pkg-1.0/", true⟩, ⟨"pkg-1.0/bin/app", false⟩]
    (by decide)).mp (by decide)
  exact h

/-- Counterexample to C1 as stated: the tar archive with entries
`a/x` and `b/y` has two distinct top-level names, so the claim demands
extraction as-is, but `extractTar` strips the first component of both
paths anyway. -/
theorem c1_counterexample :
    topComp "a/x" ≠ topComp "b/y" ∧
    extractTarEntries [⟨"a/x", .reg⟩, ⟨"b/y", .reg⟩] ≠
      [(comps "a/x", false), (comps "b/y", false)] ∧
    extractTarEntries [⟨"a/x", .reg⟩, ⟨"b/y", .reg⟩] = [(["x"], false), (["y"], false)] := by
  refine ⟨by decide, by decide, by decide⟩

/-- C8 (amended): for an installed nodejs the status probe reports
`running` exactly as the presence of its platform executable on disk
(no process is consulted); but the other non-daemon packages get no
such check — composer (and likewise phpmyadmin and adminer, which hit
no case of the switch) always reports `running = false`, even with
its executable present. -/
theorem c8_nondaemon_running_amended (env : ProcEnv) (os : String) (baseDir : Path)
    (sys : Sys) (vn vc : String)
    (hnode : sys.dirExists (pjoin (pjoin baseDir nodejsPkg.installPath) vn) = true)
    (hcomp : sys.dirExists (pjoin (pjoin baseDir composerPkg.installPath) vc) = true) :
    reportedRunning (GetServiceStatus env os baseDir sys "nodejs" vn) =
      some (sys.fileExists (pjoin (pjoin (pjoin baseDir nodejsPkg.installPath) vn)
        ((lookupD nodejsPkg.executable os).getD ""))) ∧
    reportedRunning (GetServiceStatus env os baseDir sys "composer" vc) = some false := by
  constructor
  · simp only [GetServiceStatus,
      show GetPortablePackageByID "nodejs" = some nodejsPkg from rfl]
    rw [if_neg (not_not_intro hnode)]
    rw [if_neg (show ¬ ("nodejs" : String) = "nginx" by decide),
      if_neg (show ¬ (("nodejs" : String) = "mysql" ∨ ("nodejs" : String) = "mariadb")
        by decide),
      if_neg (show ¬ ("nodejs" : String) = "redis" by decide),
      if_neg (show ¬ ("nodejs" : String) = "php" by decide)]
    rw [if_pos trivial]
    cases hfe : sys.fileExists (pjoin (pjoin (pjoin baseDir nodejsPkg.installPath) vn)
        ((lookupD nodejsPkg.executable os).getD "")) <;> rfl
  · simp only [GetServiceStatus,
      show GetPortablePackageByID "composer" = some composerPkg from rfl]
    rw [if_neg (not_not_intro hcomp)]
    rfl

/-- Witness for C8's amended theorem: nodejs 20.10.0 with its linux
executable on disk reports running; composer 2.6.6 with its phar on
disk still reports not running. -/
theorem c8_nondaemon_running_amended_witness :
    reportedRunning (GetServiceStatus ⟨fun _ => false, fun _ => 0, fun _ => false⟩
      "linux" ["base"]
      ⟨[["base", "runtime", "nodejs", "20.10.0"], ["base", "addons", "composer", "2.6.6"]],
       [(["base", "runtime", "nodejs", "20.10.0", "bin", "node"], ""),
        (["base", "addons", "composer", "2.6.6", "composer.phar"], "")], []⟩
      "nodejs" "20.10.0") =
      some (Sys.fileExists
        ⟨[["base", "runtime", "nodejs", "20.10.0"], ["base", "addons", "composer", "2.6.6"]],
         [(["base", "runtime", "nodejs", "20.10.0", "bin", "node"], ""),
          (["base", "addons", "composer", "2.6.6", "composer.phar"], "")], []⟩
        (pjoin (pjoin (pjoin ["base"] nodejsPkg.installPath) "20.10.0")
          ((lookupD nodejsPkg.executable "linux").getD ""))) ∧
    reportedRunning (GetServiceStatus ⟨fun _ => false, fun _ => 0, fun _ => false⟩
      "linux" ["base"]
      ⟨[["base", "runtime", "nodejs", "20.10.0"], ["base", "addons", "composer", "2.6.6"]],
       [(["base", "runtime", "nodejs", "20.10.0", "bin", "node"], ""),
        (["base", "addons", "composer", "2.6.6", "composer.phar"], "")], []⟩
      "composer" "2.6.6") = some false :=
  c8_nondaemon_running_amended ⟨fun _ => false, fun _ => 0, fun _ => false⟩ "linux" ["base"]
    ⟨[["base", "runtime", "nodejs", "20.10.0"], ["base", "addons", "composer", "2.6.6"]],
     [(["base", "runtime", "nodejs", "20.10.0", "bin", "node"], ""),
      (["base", "addons", "composer", "2.6.6", "composer.phar"], "")], []⟩
    "20.10.0" "2.6.6" rfl rfl

/-- Counterexample to C8 as stated: composer 2.6.6 is installed with
its platform executable `composer.phar` present on disk, yet the
status probe reports `running = false` — presence drives the flag only
for nodejs. -/
theorem c8_counterexample :
    reportedRunning (GetServiceStatus ⟨fun _ => false, fun _ => 0, fun _ => false⟩
      "linux" ["base"]
      ⟨[["base", "addons", "composer", "2.6.6"]],
       [(["base", "addons", "composer", "2.6.6", "composer.phar"], "")], []⟩
      "composer" "2.6.6") = some false ∧
    Sys.fileExists
      ⟨[["base", "addons", "composer", "2.6.6"]],
       [(["base", "addons", "composer", "2.6.6", "composer.phar"], "")], []⟩
      (pjoin (pjoin (pjoin ["base"] composerPkg.installPath) "2.6.6")
        ((lookupD composerPkg.executable "linux").getD "")) = true :=
  ⟨rfl, rfl⟩

/-- C9: the config read never modifies the system state — the
returned state is the input state on every path; when the config file
exists on disk its content is returned unchanged, and when it is
absent the package-specific default template is synthesized and
returned (without being written). -/
theorem c9_getConfig_pure (os : String) (baseDir : Path) (sys : Sys)
    (packageID version : String) :
    ((GetConfig os baseDir sys packageID version).2 = sys) ∧
    (∀ pkg configPath content, GetPortablePackageByID packageID = some pkg →
      configPathFor pkg os (pjoin (pjoin baseDir pkg.installPath) version) = some configPath →
      sys.readFile configPath = some content →
      (GetConfig os baseDir sys packageID version).1 = .ok (configPath, content)) ∧
    (∀ pkg configPath, GetPortablePackageByID packageID = some pkg →
      configPathFor pkg os (pjoin (pjoin baseDir pkg.installPath) version) = some configPath →
      sys.readFile configPath = none →
      (GetConfig os baseDir sys packageID version).1 =
        .ok (configPath,
          getDefaultConfig packageID (pjoin (pjoin baseDir pkg.installPath) version))) := by
  refine ⟨?_, ?_, ?_⟩
  · unfold GetConfig
    cases hP : GetPortablePackageByID packageID with
    | none => rfl
    | some pkg =>
      dsimp only
      cases hc : configPathFor pkg os (pjoin (pjoin baseDir pkg.installPath) version) with
      | none => rfl
      | some cp =>
        dsimp only
        cases hr : sys.readFile cp with
        | none => rfl
        | some c => rfl
  · intro pkg cp content hP hc hr
    simp only [GetConfig, hP, hc, hr]
  · intro pkg cp hP hc hr
    simp only [GetConfig, hP, hc, hr]

/-- Witness for C9: concrete redis 7.2.3 reads — with `redis.conf` on
disk the content comes back verbatim and the state is unchanged; on
an empty filesystem the default template comes back and the state is
unchanged. -/
theorem c9_getConfig_pure_witness :
    ((GetConfig "linux" ["base"]
        ⟨[], [(["base", "database", "redis", "7.2.3", "redis.conf"], "port 7000\n")], []⟩
        "redis" "7.2.3").2 =
      ⟨[], [(["base", "database", "redis", "7.2.3", "redis.conf"], "port 7000\n")], []⟩) ∧
    ((GetConfig "linux" ["base"]
        ⟨[], [(["base", "database", "redis", "7.2.3", "redis.conf"], "port 7000\n")], []⟩
        "redis" "7.2.3").1 =
      .ok (pjoin (pjoin (pjoin ["base"] redisPkg.installPath) "7.2.3") "redis.conf",
        "port 7000\n")) ∧
    ((GetConfig "linux" ["base"] ⟨[], [], []⟩ "redis" "7.2.3").2 = ⟨[], [], []⟩) ∧
    ((GetConfig "linux" ["base"] ⟨[], [], []⟩ "redis" "7.2.3").1 =
      .ok (pjoin (pjoin (pjoin ["base"] redisPkg.installPath) "7.2.3") "redis.conf",
        getDefaultConfig "redis" (pjoin (pjoin ["base"] redisPkg.installPath) "7.2.3"))) :=
  ⟨(c9_getConfig_pure "linux" ["base"]
      ⟨[], [(["base", "database", "redis", "7.2.3", "redis.conf"], "port 7000\n")], []⟩
      "redis" "7.2.3").1,
    (c9_getConfig_pure "linux" ["base"]
      ⟨[], [(["base", "database", "redis", "7.2.3", "redis.conf"], "port 7000\n")], []⟩
      "redis" "7.2.3").2.1 redisPkg _ "port 7000\n" rfl rfl rfl,
    (c9_getConfig_pure "linux" ["base"] ⟨[], [], []⟩ "redis" "7.2.3").1,
    (c9_getConfig_pure "linux" ["base"] ⟨[], [], []⟩ "redis" "7.2.3").2.2 redisPkg _
      rfl rfl rfl⟩

theorem mem_dirs_iff (sys : Sys) (p : Path) : sys.dirExists p = true ↔ p ∈ sys.dirs :=
  List.elem_iff

theorem self_mem_ancestors (p : Path) : p ∈ ancestors p := by
  unfold ancestors
  exact List.mem_map.mpr ⟨p.length, List.mem_range.mpr (by omega), List.take_length p⟩

theorem mem_ancestors_append (p q : Path) : p ∈ ancestors (p ++ q) := by
  unfold ancestors
  refine List.mem_map.mpr ⟨p.length, List.mem_range.mpr ?_, List.take_left p q⟩
  rw [List.length_append]
  omega

theorem dirExists_mkdirAll_of_ancestor (sys : Sys) (p q : Path) (h : q ∈ ancestors p) :
    (sys.mkdirAll p).dirExists q = true := by
  rw [mem_dirs_iff]
  unfold Sys.mkdirAll
  simp only [List.mem_append, List.mem_filter]
  by_cases hq : q ∈ sys.dirs
  · exact Or.inl hq
  · refine Or.inr ⟨h, ?_⟩
    simp only [decide_eq_true_eq]
    intro hc
    exact hq (List.elem_iff.mp hc)

theorem dirExists_mkdirAll_mono (sys : Sys) (p q : Path) (h : sys.dirExists q = true) :
    (sys.mkdirAll p).dirExists q = true := by
  rw [mem_dirs_iff] at h ⊢
  unfold Sys.mkdirAll
  exact List.mem_append.mpr (Or.inl h)

theorem mem_dirChildren_of_append (sys : Sys) (p : Path) (v : String)
    (h : (p ++ [v]) ∈ sys.dirs) : v ∈ sys.dirChildren p := by
  unfold Sys.dirChildren
  refine List.mem_filterMap.mpr ⟨p ++ [v], h, ?_⟩
  have h1 : (p ++ [v]).drop p.length = [v] := List.drop_left p [v]
  have h2 : (p ++ [v]).take p.length = p := List.take_left p [v]
  simp only [h1, h2, if_pos]

theorem mem_getInstalled (baseDir : Path) (sys : Sys) (pkg : PortablePackage)
    (hpkg : pkg ∈ PortableCatalog) (v : String)
    (hd : sys.dirExists (pjoin baseDir pkg.installPath) = true)
    (hc : v ∈ sys.dirChildren (pjoin baseDir pkg.installPath)) :
    (pkg.id, v) ∈ GetInstalledPortablePackages baseDir sys := by
  unfold GetInstalledPortablePackages
  refine List.mem_flatMap.mpr ⟨pkg, hpkg, ?_⟩
  have hr : sys.readDir (pjoin baseDir pkg.installPath) =
      some (sys.dirChildren (pjoin baseDir pkg.installPath)) := by
    unfold Sys.readDir
    rw [hd]
    rfl
  simp only [hr]
  exact List.mem_map.mpr ⟨v, hc, rfl⟩

/-- C10 (implicit): when an install call has resolved a download URL,
the install directory `{base}/{install_subpath}/{version}` is created
before the download starts, so after a failing download (or failing
extraction) the call returns an error while the directory still
exists — and consequently the (package id, version) pair appears in
the filesystem-derived installed list and the status probe's
installed-directory check passes, even though nothing was extracted
into the directory. -/
theorem c10_failed_install_reported_installed (env : InstallEnv) (sys : Sys)
    (packageID version : String) (pkg : PortablePackage) (url m : String)
    (hpkg : GetPortablePackageByID packageID = some pkg)
    (hurl : GetDownloadURL pkg version env.os env.arch = .ok url)
    (hdl : (downloadFile env.resp).1 = .error m ∨
      ((downloadFile env.resp).1 = .ok () ∧ env.extractOutcome = .error m))
    (hver : comps version = [version]) :
    (InstallPortablePackage env sys packageID version).err = some m ∧
    (InstallPortablePackage env sys packageID version).sys.dirExists
      (pjoin (pjoin env.baseDir pkg.installPath) version) = true ∧
    (packageID, version) ∈ GetInstalledPortablePackages env.baseDir
      (InstallPortablePackage env sys packageID version).sys ∧
    (∀ penv os2, ∃ st, GetServiceStatus penv os2 env.baseDir
      (InstallPortablePackage env sys packageID version).sys packageID version =
        .ok st) := by
  have hfind : PortableCatalog.find? (fun q => q.id == packageID) = some pkg := hpkg
  have hpkgmem : pkg ∈ PortableCatalog := List.mem_of_find?_eq_some hfind
  have hpkgid : pkg.id = packageID := by
    have h := List.find?_some hfind
    simpa using h
  have hsplit : pjoin (pjoin env.baseDir pkg.installPath) version =
      (pjoin env.baseDir pkg.installPath) ++ [version] := by
    unfold pjoin
    rw [hver]
  have hstate : (InstallPortablePackage env sys packageID version).err = some m ∧
      (InstallPortablePackage env sys packageID version).sys.dirs =
        ((sys.mkdirAll (pjoin (pjoin env.baseDir pkg.installPath) version)).mkdirAll
          (pjoin env.baseDir ".temp")).dirs := by
    rcases hdl with hA | ⟨hB1, hB2⟩
    · refine ⟨?_, ?_⟩ <;> simp only [InstallPortablePackage, hpkg, hurl, hA]
    · refine ⟨?_, ?_⟩ <;> simp only [InstallPortablePackage, hpkg, hurl, hB1, hB2] <;>
        try rfl
  have hex : (InstallPortablePackage env sys packageID version).sys.dirExists
      (pjoin (pjoin env.baseDir pkg.installPath) version) = true := by
    rw [mem_dirs_iff, hstate.2, ← mem_dirs_iff]
    exact dirExists_mkdirAll_mono _ _ _
      (dirExists_mkdirAll_of_ancestor _ _ _ (self_mem_ancestors _))
  have hexParent : (InstallPortablePackage env sys packageID version).sys.dirExists
      (pjoin env.baseDir pkg.installPath) = true := by
    rw [mem_dirs_iff, hstate.2, ← mem_dirs_iff]
    refine dirExists_mkdirAll_mono _ _ _ (dirExists_mkdirAll_of_ancestor _ _ _ ?_)
    rw [hsplit]
    exact mem_ancestors_append _ _
  refine ⟨hstate.1, hex, ?_, ?_⟩
  · have hchild : version ∈ (InstallPortablePackage env sys packageID
        version).sys.dirChildren (pjoin env.baseDir pkg.installPath) := by
      refine mem_dirChildren_of_append _ _ _ ?_
      rw [← hsplit]
      exact (mem_dirs_iff _ _).mp hex
    have := mem_getInstalled env.baseDir _ pkg hpkgmem version hexParent hchild
    rw [hpkgid] at this
    exact this
  · intro penv os2
    exact ⟨_, by
      simp only [GetServiceStatus, hpkg]
      rw [if_neg (not_not_intro hex)]⟩

/-- Witness for C10: a concrete composer 2.6.6 install on a pristine
filesystem whose download dies with a 500: the error surfaces, yet
the install directory exists, `(composer, 2.6.6)` is listed as
installed, and the status probe succeeds. -/
theorem c10_failed_install_reported_installed_witness :
    (InstallPortablePackage
      ⟨"linux", "amd64", ["base"], ⟨500, 100, [], none⟩, .ok (), []⟩
      ⟨[], [], []⟩ "composer" "2.6.6").err = some "download failed: 500" ∧
    (InstallPortablePackage
      ⟨"linux", "amd64", ["base"], ⟨500, 100, [], none⟩, .ok (), []⟩
      ⟨[], [], []⟩ "composer" "2.6.6").sys.dirExists
        (pjoin (pjoin ["base"] composerPkg.installPath) "2.6.6") = true ∧
    ("composer", "2.6.6") ∈ GetInstalledPortablePackages ["base"]
      (InstallPortablePackage
        ⟨"linux", "amd64", ["base"], ⟨500, 100, [], none⟩, .ok (), []⟩
        ⟨[], [], []⟩ "composer" "2.6.6").sys ∧
    (∀ penv os2, ∃ st, GetServiceStatus penv os2 ["base"]
      (InstallPortablePackage
        ⟨"linux", "amd64", ["base"], ⟨500, 100, [], none⟩, .ok (), []⟩
        ⟨[], [], []⟩ "composer" "2.6.6").sys "composer" "2.6.6" = .ok st) :=
  c10_failed_install_reported_installed
    ⟨"linux", "amd64", ["base"], ⟨500, 100, [], none⟩, .ok (), []⟩
    ⟨[], [], []⟩ "composer" "2.6.6" composerPkg
    "https://getcomposer.org/download/2.6.6/composer.phar" "download failed: 500"
    rfl rfl (Or.inl rfl) rfl

end NetPanel
